import Mathlib

/-!
Shallow embedding of the guard/backup bot (GuardManager.ts, RedisManager.ts,
BackupManager.ts, DatabaseManager) and proofs about the frozen claims.
All definitions are translated from the TypeScript source; doc comments cite
the source symbol each definition embeds.
-/

namespace TrashBackup

/-- Severity levels of a violation, `'low' | 'medium' | 'high' | 'critical'`
(GuardManager.handleViolation's `severity` parameter). -/
inductive Severity
  | low
  | medium
  | high
  | critical
deriving DecidableEq, Repr

/-- The `GuardAction` enum of utils/types.ts. -/
inductive GuardAction
  | log
  | notify
  | kick
  | ban
  | removeRole
  | timeout
  | restore
  | lockdown
deriving DecidableEq, Repr

/-- The `actions` block of a `GuardConfig` (utils/types.ts): the two configured
action lists. -/
structure ActionConfig where
  onViolation : List GuardAction
  onSuspiciousActivity : List GuardAction
deriving DecidableEq, Repr

/-- GuardManager.handleViolation line 1077:
`const actions = severity === 'critical' ? config.actions.onViolation : config.actions.onSuspiciousActivity;`. -/
def actionsFor (cfg : ActionConfig) (sev : Severity) : List GuardAction :=
  if sev = .critical then cfg.onViolation else cfg.onSuspiciousActivity

/-- Number of violation embeds `sendNotification` posts on one call: it returns
without posting unless the guild config has `auditChannelId` set and the channel
is found in the cache (both folded into `sinkAvailable`); otherwise it posts one
embed (GuardManager.sendNotification). -/
def sendNotificationCount (sinkAvailable : Bool) : Nat :=
  if sinkAvailable then 1 else 0

/-- Number of violation embeds `executeAction` posts for one action: only the
`NOTIFY` case calls `sendNotification` (GuardManager.executeAction). -/
def executeActionNotifCount (sinkAvailable : Bool) (a : GuardAction) : Nat :=
  match a with
  | .notify => sendNotificationCount sinkAvailable
  | _ => 0

/-- Number of violation embeds `handleViolation` posts for one handled
violation: it runs `executeAction` for each action in the severity's configured
list, then calls `sendNotification` once more unconditionally after the loop
(GuardManager.handleViolation lines 1079-1083). -/
def handleViolationNotifCount (cfg : ActionConfig) (sev : Severity) (sinkAvailable : Bool) : Nat :=
  ((actionsFor cfg sev).map (executeActionNotifCount sinkAvailable)).sum
    + sendNotificationCount sinkAvailable

/-- State of one Redis violation-counter key: the stored count (the source
stores its decimal string) and the remaining time to live in seconds. -/
structure CounterKey where
  count : Nat
  ttl : Nat
deriving DecidableEq, Repr

/-- RedisManager.set with a ttl argument uses `setEx`, which stores the value
and sets the key's TTL to exactly `ttl`, regardless of any previous TTL. -/
def redisSetEx (v : Nat) (ttl : Nat) : Option CounterKey :=
  some ⟨v, ttl⟩

/-- RedisManager.incrementUserViolationCount (lines 271-277): `get` the key,
parse (absent ⇒ 0), add one, then `set(key, newCount, ttl)` (which is `setEx`).
Returns the updated key state and the new count. -/
def incrementUserViolationCount (st : Option CounterKey) (ttl : Nat) : Option CounterKey × Nat :=
  let c := match st with
    | some k => k.count
    | none => 0
  let newCount := c + 1
  (redisSetEx newCount ttl, newCount)

/-- The fields of a `GuardConfig` (utils/types.ts) the per-event pipeline
consults: the enable flag, the per-kind protection switches, and the in-config
whitelist of user ids and role ids. -/
structure GuardConfigM where
  enabled : Bool
  protectionGuild : Bool
  protectionRoles : Bool
  protectionInvites : Bool
  whitelistUsers : List String
  whitelistRoles : List String
  maxInviteCreations : Nat
deriving DecidableEq, Repr

/-- Live guild state the pipeline reads: the guild id and, per member id, the
role ids that member currently holds (discord.js member/role caches). -/
structure GuildState where
  guildId : String
  memberRoles : List (String × List String)
deriving DecidableEq, Repr

/-- Role ids currently held by a user (member role cache lookup; an unknown
member holds no roles). -/
def rolesOf (g : GuildState) (userId : String) : List String :=
  match g.memberRoles.find? (fun p => p.1 == userId) with
  | some p => p.2
  | none => []

/-- GuardManager.isWhitelisted (lines 938-951): synchronous check against the
in-config whitelist only — the executor's user id is listed, or the executor
currently holds one of the listed role ids. Missing config is handled by the
callers (modelled as `Option GuardConfigM`). -/
def isWhitelisted (cfg : GuardConfigM) (g : GuildState) (userId : String) : Bool :=
  cfg.whitelistUsers.contains userId ||
    cfg.whitelistRoles.any (fun rid => (rolesOf g userId).contains rid)

/-- One row of the persisted `whitelist` table (DatabaseManager):
`whitelist_type`, `target_id`, `is_active`, `expires_at`. -/
structure WhitelistEntry where
  kind : String
  targetId : String
  isActive : Bool
  expiresAt : Option Nat
deriving DecidableEq, Repr

/-- DatabaseManager.isWhitelisted: SQL
`whitelist_type = ? AND target_id = ? AND is_active = TRUE AND (expires_at IS NULL OR expires_at > NOW())`. -/
def dbIsWhitelisted (entries : List WhitelistEntry) (now : Nat) (kind targetId : String) : Bool :=
  entries.any (fun e =>
    e.kind == kind && e.targetId == targetId && e.isActive &&
      (match e.expiresAt with
       | none => true
       | some t => now < t))

/-- GuardManager.checkWhitelist (lines 1007-1031): user-level entry, then
action-level entry, then each role currently held by the executor,
short-circuiting on the first match. The 30-second read cache of the three
sub-checks is not modelled (it only delays, never changes, a fresh answer). -/
def checkWhitelist (entries : List WhitelistEntry) (now : Nat) (g : GuildState)
    (executorId action : String) : Bool :=
  dbIsWhitelisted entries now "user" executorId ||
  dbIsWhitelisted entries now "action" action ||
  (rolesOf g executorId).any (fun rid => dbIsWhitelisted entries now "role" rid)

/-- Key of a self-action marker: `` `${guildId}:${targetId}` ``
(GuardManager.markSelfAction). -/
def selfKey (guildId targetId : String) : String :=
  guildId ++ ":" ++ targetId

/-- GuardManager.isSelfAction: membership of the key in the `selfActions` set.
Within the marker TTL the key is present; the timed delete removes it. -/
def isSelfAction (selfActions : List String) (guildId targetId : String) : Bool :=
  selfActions.contains (selfKey guildId targetId)

/-- GuardManager.markSelfAction (lines 1900-1907): insert the key (the timed
delete after `SELF_ACTION_TIMEOUT` is the marker's TTL expiry). -/
def markSelfAction (selfActions : List String) (guildId targetId : String) : List String :=
  selfKey guildId targetId :: selfActions

/-- One audit log entry as the handlers read it: `executor?.id` and
`targetId` (GuardManager.getAuditLog result). -/
structure AuditEntry where
  executorId : Option String
  targetId : Option String
deriving DecidableEq, Repr

/-- Terminal state of one per-event handler run: which gate dropped the event,
or that the handler went on to remediation and classification (`acted`). -/
inductive PipelineOutcome
  | droppedConfig
  | droppedSelf
  | droppedNoAudit
  | droppedBot
  | droppedWhitelist
  | droppedNoChange
  | droppedMismatch
  | droppedDuplicate
  | droppedRestoring
  | counted
  | acted
deriving DecidableEq, Repr

/-- Inputs one handler run reads: the guild config (none if not loaded), live
guild state, the event's target entity id, the self-action marker set, the
fetched audit entry (none on fetch failure or empty log), and the bot's own
user id. -/
structure EventCtx where
  config : Option GuardConfigM
  guild : GuildState
  targetId : String
  selfActions : List String
  auditLog : Option AuditEntry
  botId : String
deriving DecidableEq, Repr

/-- GuardManager.handleGenericEvent (lines 284-314), the shared pipeline of the
role/channel/emoji/sticker create handlers and the emoji/sticker update/delete
handlers: config gate, self-action gate, audit fetch, bot gate, then only the
synchronous in-config whitelist check before acting. -/
def handleGenericEvent (ctx : EventCtx) : PipelineOutcome :=
  match ctx.config with
  | none => .droppedConfig
  | some cfg =>
    if !cfg.enabled then .droppedConfig
    else if isSelfAction ctx.selfActions ctx.guild.guildId ctx.targetId then .droppedSelf
    else
      match ctx.auditLog with
      | none => .droppedNoAudit
      | some audit =>
        let executorId := audit.executorId.getD ""
        if executorId == ctx.botId then .droppedBot
        else if isWhitelisted cfg ctx.guild executorId then .droppedWhitelist
        else .acted

/-- GuardManager.handleGuildUpdate (lines 774-802): config/protection gate,
audit fetch, bot gate, synchronous whitelist gate, then restore and violation
classification. The handler performs no self-action check. -/
def handleGuildUpdate (ctx : EventCtx) : PipelineOutcome :=
  match ctx.config with
  | none => .droppedConfig
  | some cfg =>
    if !cfg.enabled || !cfg.protectionGuild then .droppedConfig
    else
      match ctx.auditLog with
      | none => .droppedNoAudit
      | some audit =>
        let executorId := audit.executorId.getD ""
        if executorId == ctx.botId then .droppedBot
        else if isWhitelisted cfg ctx.guild executorId then .droppedWhitelist
        else .acted

/-- Abstract operations a restore routine issues, in program order. -/
inductive ROp
  | markSelf (guildId targetId : String)
  | fetchLatestBackup
  | fetchBackupData
  | editGuild (guildId : String)
  | logError
deriving DecidableEq, Repr

/-- GuardManager.restoreGuildSettings (lines 1661-1690) as its operation trace:
mark the `guild_settings` self-action key first, fetch the latest backup (log
and stop if none), fetch the guild data (log and stop if absent), then issue
the mutating `guild.edit` call. -/
def restoreGuildSettingsOps (guildId : String) (backupExists guildDataExists : Bool) : List ROp :=
  [.markSelf guildId "guild_settings", .fetchLatestBackup] ++
    (if !backupExists then [.logError]
     else [.fetchBackupData] ++
       (if !guildDataExists then [.logError] else [.editGuild guildId]))

/-- Key of the restoration-in-progress lock:
`` `${guildId}:${roleId}:restoration` `` (GuardManager.handleRoleUpdate). -/
def restorationKey (guildId targetId : String) : String :=
  guildId ++ ":" ++ targetId ++ ":restoration"

/-- Key of the recent-restore marker:
`` `${guildId}:${roleId}:recent_restore` `` (GuardManager.handleRoleUpdate). -/
def recentRestoreKey (guildId targetId : String) : String :=
  guildId ++ ":" ++ targetId ++ ":recent_restore"

/-- Inputs of one GuardManager.handleRoleUpdate run beyond `EventCtx`: the
persisted whitelist table, the wall clock, the restoration-lock set, whether
the tracked role fields differ, and the recent-change map entry for this
(guild, role, executor) fingerprint. -/
structure RoleUpdateCtx where
  config : Option GuardConfigM
  guild : GuildState
  roleId : String
  selfActions : List String
  restorationInProgress : List String
  auditLog : Option AuditEntry
  botId : String
  store : List WhitelistEntry
  now : Nat
  roleChanged : Bool
  recentChange : Option Nat
deriving DecidableEq, Repr

/-- GuardManager.handleRoleUpdate (lines 338-412), gate section: config and
`protection.roles` gate, self-action gate, restoration-lock gate,
recent-restore gate, audit fetch, bot gate, synchronous in-config whitelist,
asynchronous store whitelist (`role_update`), tracked-field diff, audit
target-id mismatch, then the 5-second recent-change duplicate window; past all
gates it restores and classifies. -/
def handleRoleUpdateGates (ctx : RoleUpdateCtx) : PipelineOutcome :=
  match ctx.config with
  | none => .droppedConfig
  | some cfg =>
    if !cfg.enabled || !cfg.protectionRoles then .droppedConfig
    else if isSelfAction ctx.selfActions ctx.guild.guildId ctx.roleId then .droppedSelf
    else if ctx.restorationInProgress.contains (restorationKey ctx.guild.guildId ctx.roleId) then
      .droppedRestoring
    else if ctx.selfActions.contains (recentRestoreKey ctx.guild.guildId ctx.roleId) then
      .droppedRestoring
    else
      match ctx.auditLog with
      | none => .droppedNoAudit
      | some audit =>
        let executorId := audit.executorId.getD ""
        if executorId == ctx.botId then .droppedBot
        else if isWhitelisted cfg ctx.guild executorId then .droppedWhitelist
        else if checkWhitelist ctx.store ctx.now ctx.guild executorId "role_update" then
          .droppedWhitelist
        else if !ctx.roleChanged then .droppedNoChange
        else if (match audit.targetId with
                 | some t => t != ctx.roleId
                 | none => false) then .droppedMismatch
        else if (match ctx.recentChange with
                 | some t0 => decide (ctx.now - t0 < 5000)
                 | none => false) then .droppedDuplicate
        else .acted

/-- GuardManager.handleRoleDelete (lines 414-507), gate section: self-action
gate, audit fetch (a missing entry does NOT drop — the handler proceeds with
executor unknown), then the store whitelist (`role_delete`) only when an
executor was attributed; past the gates it recreates the role and classifies.
It has no config gate and never consults the in-config whitelist. -/
def handleRoleDeleteGates (guild : GuildState) (selfActions : List String) (roleId : String)
    (auditLog : Option AuditEntry) (store : List WhitelistEntry) (now : Nat) : PipelineOutcome :=
  if isSelfAction selfActions guild.guildId roleId then .droppedSelf
  else
    match auditLog.bind (·.executorId) with
    | some eid =>
      if checkWhitelist store now guild eid "role_delete" then .droppedWhitelist
      else .acted
    | none => .acted

/-- One role-update notification as the recent-change window sees it: arrival
time (`Date.now()` at processing) and abstract digests of the tracked role
state before and after the change. All events of one run share the same
fingerprint `` `${guildId}:${roleId}:${executorId}` ``. -/
structure RoleUpdateEvent where
  time : Nat
  oldState : Nat
  newState : Nat
deriving DecidableEq, Repr

/-- GuardManager.handleRoleUpdate lines 375-382: look up the recent-change map
entry for the event's fingerprint; if an entry exists and is younger than
5000 ms, the event is dropped and the entry is NOT refreshed; otherwise the
entry is set to this event's time and remediation runs for THIS event. Returns
the updated entry and whether remediation fired. -/
def recentChangeStep (last : Option Nat) (e : RoleUpdateEvent) : Option Nat × Bool :=
  match last with
  | some t0 => if e.time - t0 < 5000 then (some t0, false) else (some e.time, true)
  | none => (some e.time, true)

/-- The events of a same-fingerprint sequence for which remediation fires,
processing in arrival order through the recent-change window. -/
def firedEvents (last : Option Nat) : List RoleUpdateEvent → List RoleUpdateEvent
  | [] => []
  | e :: rest =>
    let s := recentChangeStep last e
    if s.2 then e :: firedEvents s.1 rest else firedEvents s.1 rest

/-- Persisted whitelist used in the C4 counterexample: one active, unexpired
action-kind entry exempting the `emoji_delete` action. -/
def c4Store : List WhitelistEntry :=
  [⟨"action", "emoji_delete", true, none⟩]

/-- An emoji-delete event context for the C4 counterexample: executor
`attacker` is not in the in-config whitelist; the handler is the shared
generic pipeline, which never consults the persisted whitelist store. -/
def c4EmojiDeleteCtx : EventCtx :=
  { config := some ⟨true, true, true, true, [], [], 10⟩
    guild := ⟨"g1", []⟩
    targetId := "e9"
    selfActions := []
    auditLog := some ⟨some "attacker", none⟩
    botId := "bot" }

/-- DatabaseManager.getBackupsByGuild: the guild's backups ordered newest
first, SQL `LIMIT ?` (the orchestrator passes 10). Backups are modelled by
their ids. -/
def getBackupsByGuild (all : List String) (limit : Nat) : List String :=
  all.take limit

/-- The fallback loop of GuardManager.performRestore (lines 1249-1262): walk
the recent backups, skip the already-tried chosen backup, stop at the first
backup whose restore attempt succeeds. `succeeds b` abstracts
`await restoreMethod(b, targetId)` — true when the entity is present in backup
`b` and the platform call is accepted. -/
def fallbackLoop (succeeds : String → Bool) (chosen : String) : List String → Bool
  | [] => false
  | b :: rest =>
    if b == chosen then fallbackLoop succeeds chosen rest
    else if succeeds b then true
    else fallbackLoop succeeds chosen rest

/-- GuardManager.performRestore (lines 1209-1276), success computation: try the
chosen backup, and only on failure fall back over the 10 most recent backups.
This is the path of deleted-role restores (restoreDeletedRole). -/
def performRestoreSuccess (succeeds : String → Bool) (chosen : String) (all : List String) : Bool :=
  if succeeds chosen then true
  else fallbackLoop succeeds chosen (getBackupsByGuild all 10)

/-- Outcome report of a restore routine: the reported success flag and whether
an outcome notification was sent. The source sends `sendRestoreNotification`
with the flag in both the success and the exhaustion branch, and wraps the
whole routine in try/catch, so no exception escapes. -/
structure RestoreReport where
  success : Bool
  notified : Bool
deriving DecidableEq, Repr

/-- GuardManager.performRestore including its outcome reporting. -/
def performRestoreReport (succeeds : String → Bool) (chosen : String)
    (all : List String) : RestoreReport :=
  ⟨performRestoreSuccess succeeds chosen all, true⟩

/-- GuardManager.restoreDeletedEmoji (lines 1519-1557): a single
`backupManager.restoreEmoji(finalBackupId, emojiId)` attempt against the chosen
(or latest) backup; on a false result it sends a failure notification and
returns — there is no fallback over older backups. restoreDeletedSticker
(lines 1589-1627) is line-for-line the same shape. -/
def restoreDeletedEmojiReport (succeeds : String → Bool) (chosen : String) : RestoreReport :=
  ⟨succeeds chosen, true⟩

/-- Failure a handler's awaited external calls can raise. -/
inductive HandlerError
  | redisError
deriving DecidableEq, Repr

/-- RedisManager.executeRedisOperation (lines 77-84): runs the operation and,
on failure, logs the error and RETHROWS it — RedisManager.get and .set
therefore propagate a Redis failure to their caller. -/
def executeRedisOperation (fails : Bool) (v : Nat) : Except HandlerError Nat :=
  if fails then .error .redisError else .ok v

/-- Inputs of one GuardManager.handleInviteCreate run: the usual gate inputs
plus whether the counter store is failing and the stored violation count. -/
structure InviteCreateCtx where
  config : Option GuardConfigM
  guild : GuildState
  auditLog : Option AuditEntry
  botId : String
  redisFails : Bool
  violationCount : Nat
deriving DecidableEq, Repr

/-- GuardManager.handleInviteCreate (lines 891-918): config/protection gate,
audit fetch (getAuditLog catches internally), bot gate, synchronous whitelist
gate, then an awaited counter-store read and — below the limit — an awaited
counter-store increment. The handler body has NO try/catch, so a counter-store
rejection escapes to the event dispatcher. At or above the limit it calls
handleViolation, which root-catches internally (`acted`). -/
def handleInviteCreateRun (ctx : InviteCreateCtx) : Except HandlerError PipelineOutcome :=
  match ctx.config with
  | none => .ok .droppedConfig
  | some cfg =>
    if !cfg.enabled || !cfg.protectionInvites then .ok .droppedConfig
    else
      match ctx.auditLog with
      | none => .ok .droppedNoAudit
      | some audit =>
        let executorId := audit.executorId.getD ""
        if executorId == ctx.botId then .ok .droppedBot
        else if isWhitelisted cfg ctx.guild executorId then .ok .droppedWhitelist
        else
          match executeRedisOperation ctx.redisFails ctx.violationCount with
          | .error e => .error e
          | .ok cnt =>
            if cfg.maxInviteCreations ≤ cnt then .ok .acted
            else
              match executeRedisOperation ctx.redisFails (cnt + 1) with
              | .error e => .error e
              | .ok _ => .ok .counted

/-- GuardManager.handleGenericEvent with its awaited `action()` allowed to
fail: the call sits in a try/catch inside the handler (lines 309-313), so a
failing action is logged and the handler still returns normally. -/
def handleGenericEventRun (ctx : EventCtx) (actionFails : Bool) :
    Except HandlerError PipelineOutcome :=
  match handleGenericEvent ctx with
  | .acted =>
    match (if actionFails then Except.error HandlerError.redisError else .ok ()) with
    | .ok _ => .ok .acted
    | .error _ => .ok .acted
  | o => .ok o

/-- Context of the C6 counterexample: a non-whitelisted invite creation while
the counter store is failing. -/
def c6InviteCtx : InviteCreateCtx :=
  { config := some ⟨true, true, true, true, [], [], 10⟩
    guild := ⟨"g1", []⟩
    auditLog := some ⟨some "attacker", none⟩
    botId := "bot"
    redisFails := true
    violationCount := 0 }

/-- One live guild member as the bulk role syncer sees it: id, whether the
member already holds the role being re-assigned, and whether this member's
individual grant call fails (permission or rate-limit rejection). -/
structure MemberM where
  id : String
  hasRole : Bool
  grantFails : Bool
deriving DecidableEq, Repr

/-- BackupManager.fastAssignRoleToMembers lines 1069-1078: the target set is
the snapshot's members recorded as holding the role
(`getMembersWithRole`); the fetched live members are filtered to those in the
target set that do not already hold the role. -/
def membersToAssign (snapshotIds : List String) (live : List MemberM) : List MemberM :=
  live.filter (fun m => snapshotIds.contains m.id && !m.hasRole)

/-- Fixed-size batching (lines 1089-1094): successive `BATCH_SIZE = 50` slices
of the member array. -/
def chunk50 : List MemberM → List (List MemberM)
  | [] => []
  | x :: xs => ((x :: xs).take 50) :: chunk50 ((x :: xs).drop 50)
termination_by l => l.length
decreasing_by
  simp only [List.length_drop, List.length_cons]
  omega

/-- One batch's granted members (lines 1106-1120): per-member grant calls are
issued concurrently and joined with `Promise.allSettled`, each additionally
wrapped in its own try/catch returning a success flag — so each member's
outcome is its own flag and one member's failure never cancels its siblings. -/
def batchGranted (batch : List MemberM) : List MemberM :=
  batch.filter (fun m => !m.grantFails)

/-- One batch's error count (line 1121):
`batchResults.length - batchSuccessCount`. -/
def batchErrorCount (batch : List MemberM) : Nat :=
  batch.length - (batchGranted batch).length

/-- All members granted the role across the batch groups (the 5-concurrent
group loop of lines 1103-1140 visits every batch exactly once). -/
def fastAssignGranted (snapshotIds : List String) (live : List MemberM) : List MemberM :=
  ((chunk50 (membersToAssign snapshotIds live)).map batchGranted).flatten

/-- Aggregated `successCount` (line 1123). -/
def fastAssignSuccessCount (snapshotIds : List String) (live : List MemberM) : Nat :=
  (fastAssignGranted snapshotIds live).length

/-- Aggregated `errorCount` (line 1124). -/
def fastAssignErrorCount (snapshotIds : List String) (live : List MemberM) : Nat :=
  ((chunk50 (membersToAssign snapshotIds live)).map batchErrorCount).sum

/-- The gateway event kinds GuardManager.setupEventHandlers subscribes to. -/
inductive EventKind
  | guildUpdate
  | guildDelete
  | channelCreate
  | channelUpdate
  | channelDelete
  | roleCreate
  | roleUpdate
  | roleDelete
  | memberAdd
  | memberUpdate
  | memberRemove
  | emojiCreate
  | emojiUpdate
  | emojiDelete
  | stickerCreate
  | stickerUpdate
  | stickerDelete
  | webhookUpdate
  | inviteCreate
  | inviteDelete
deriving DecidableEq, Repr

/-- One inbound gateway event: its kind, the guild id it belongs to (`none`
for guildless channels/invites/stickers), and the member-object partiality
flags the member listeners consult. -/
structure GatewayEvent where
  kind : EventKind
  guildId : Option String
  oldMemberPart : Bool
  newMemberPart : Bool
deriving DecidableEq, Repr

/-- GuardManager.setupEventHandlers (lines 135-263): whether the listener for
the event's kind invokes its handler. Every listener compares the event's
guild id against the single `targetGuildId` (read from `DISCORD_GUILD_ID` in
the constructor) and calls the handler only on equality; the member-update
listener additionally requires both member objects non-partial, and the
member-remove listener requires the member non-partial. Audit lookups,
platform mutations and violation records happen only inside the handlers. -/
def dispatchesHandler (targetGuildId : String) (e : GatewayEvent) : Bool :=
  match e.kind with
  | .guildUpdate => e.guildId == some targetGuildId
  | .guildDelete => e.guildId == some targetGuildId
  | .channelCreate => e.guildId == some targetGuildId
  | .channelUpdate => e.guildId == some targetGuildId
  | .channelDelete => e.guildId == some targetGuildId
  | .roleCreate => e.guildId == some targetGuildId
  | .roleUpdate => e.guildId == some targetGuildId
  | .roleDelete => e.guildId == some targetGuildId
  | .memberAdd => e.guildId == some targetGuildId
  | .memberUpdate => e.guildId == some targetGuildId && !e.oldMemberPart && !e.newMemberPart
  | .memberRemove => e.guildId == some targetGuildId && !e.newMemberPart
  | .emojiCreate => e.guildId == some targetGuildId
  | .emojiUpdate => e.guildId == some targetGuildId
  | .emojiDelete => e.guildId == some targetGuildId
  | .stickerCreate => e.guildId == some targetGuildId
  | .stickerUpdate => e.guildId == some targetGuildId
  | .stickerDelete => e.guildId == some targetGuildId
  | .webhookUpdate => e.guildId == some targetGuildId
  | .inviteCreate => e.guildId == some targetGuildId
  | .inviteDelete => e.guildId == some targetGuildId

/-- Self-action-marked echo context of a guild-settings restore: the
`g1:guild_settings` marker is in the set, but the fetched audit entry still
attributes the latest guild update to the original attacker (the audit trail
may lag the engine's own corrective edit). -/
def c1EchoCtx : EventCtx :=
  { config := some ⟨true, true, true, true, [], [], 10⟩
    guild := ⟨"g1", []⟩
    targetId := "guild_settings"
    selfActions := [selfKey "g1" "guild_settings"]
    auditLog := some ⟨some "attacker", none⟩
    botId := "bot" }

end TrashBackup

namespace TrashBackup

/-- A list sums its per-element notification counts to the number of `notify`
entries times the per-call count. -/
theorem sum_executeActionNotifCount (l : List GuardAction) (b : Bool) :
    (l.map (executeActionNotifCount b)).sum = l.count .notify * sendNotificationCount b := by
  induction l with
  | nil => simp
  | cons a rest ih =>
    cases a <;> simp [executeActionNotifCount, List.count_cons, ih, Nat.succ_mul, Nat.add_comm]

/-- C3 counterexample: with `onViolation = [restore]` and
`onSuspiciousActivity = [log]`, a `high`-severity violation executes the
`onSuspiciousActivity` list, not the configured `onViolation` list the claim
requires for high severity. -/
theorem c3_high_uses_suspicious_list :
    actionsFor ⟨[.restore], [.log]⟩ .high = [.log] ∧
      actionsFor ⟨[.restore], [.log]⟩ .high ≠ (ActionConfig.mk [.restore] [.log]).onViolation := by
  constructor
  · rfl
  · decide

/-- C3 (amended): the configured `onViolation` list is executed only for
`critical` severity; `high`, `medium` and `low` severities all execute the
configured `onSuspiciousActivity` list. -/
theorem c3_action_list_selection (cfg : ActionConfig) :
    actionsFor cfg .critical = cfg.onViolation ∧
    actionsFor cfg .high = cfg.onSuspiciousActivity ∧
    actionsFor cfg .medium = cfg.onSuspiciousActivity ∧
    actionsFor cfg .low = cfg.onSuspiciousActivity := by
  refine ⟨rfl, rfl, rfl, rfl⟩

/-- C8 counterexample: an existing counter key with 100 seconds of TTL left is
incremented; the result has TTL 3600, so the key's original remaining TTL is
not preserved by the increment. -/
theorem c8_increment_resets_ttl :
    incrementUserViolationCount (some ⟨2, 100⟩) 3600 = (some ⟨3, 3600⟩, 3) ∧
      (3600 : Nat) ≠ 100 := by
  exact ⟨rfl, by decide⟩

/-- C8 (amended): `incrementUserViolationCount` is a non-atomic read-then-write:
it increases the stored count by one (an absent key becomes 1) and always resets
the key's TTL to the full configured `ttl`, discarding any remaining TTL. -/
theorem c8_increment_semantics (c t ttl : Nat) :
    incrementUserViolationCount (some ⟨c, t⟩) ttl = (some ⟨c + 1, ttl⟩, c + 1) ∧
    incrementUserViolationCount none ttl = (some ⟨1, ttl⟩, 1) := by
  exact ⟨rfl, rfl⟩

/-- C10: whenever the severity's configured action list contains the `notify`
action exactly once and the notification sink is available (audit channel set
and found), `handleViolation` posts the violation embed exactly twice: once in
the `NOTIFY` branch of the action loop and once unconditionally afterwards. -/
theorem c10_notification_posted_twice (cfg : ActionConfig) (sev : Severity)
    (h : (actionsFor cfg sev).count .notify = 1) :
    handleViolationNotifCount cfg sev true = 2 := by
  unfold handleViolationNotifCount
  rw [sum_executeActionNotifCount, h]
  rfl

/-- Witness for C10 at a concrete configuration. -/
theorem c10_notification_posted_twice_witness :
    handleViolationNotifCount ⟨[.log], [.log, .notify]⟩ .low true = 2 :=
  c10_notification_posted_twice ⟨[.log], [.log, .notify]⟩ .low (by decide)

/-- Every run of the guild-update handler ends in one of its five actual
terminal states; `droppedSelf` is not among them. -/
theorem handleGuildUpdate_cases (ctx : EventCtx) :
    handleGuildUpdate ctx = .droppedConfig ∨ handleGuildUpdate ctx = .droppedNoAudit ∨
    handleGuildUpdate ctx = .droppedBot ∨ handleGuildUpdate ctx = .droppedWhitelist ∨
    handleGuildUpdate ctx = .acted := by
  obtain ⟨cfgO, g, t, sa, al, b⟩ := ctx
  cases cfgO with
  | none => simp [handleGuildUpdate]
  | some cfg =>
    cases al with
    | none =>
      by_cases h : (!cfg.enabled || !cfg.protectionGuild) = true <;>
        simp [handleGuildUpdate, h]
    | some a =>
      by_cases h : (!cfg.enabled || !cfg.protectionGuild) = true
      · simp [handleGuildUpdate, h]
      · by_cases h2 : (a.executorId.getD "" == b) = true
        · simp [handleGuildUpdate, h, h2]
        · by_cases h3 : isWhitelisted cfg g (a.executorId.getD "") = true <;>
            simp [handleGuildUpdate, h, h2, h3]

/-- C1 counterexample: the self-action marker `g1:guild_settings` of a
guild-settings restore is present, yet a guild-update echo whose (lagging)
audit entry still names the original attacker passes every gate of the
guild-update handler and reaches classification and remediation (`acted`):
the handler has no SELF-CHECK gate, so the marked echo is not dropped there. -/
theorem c1_guild_settings_echo_reaches_classify :
    isSelfAction c1EchoCtx.selfActions c1EchoCtx.guild.guildId c1EchoCtx.targetId = true ∧
      handleGuildUpdate c1EchoCtx = .acted := by
  exact ⟨by decide, by decide⟩

/-- C1 (amended): the restore orchestration marks its (spaceId, targetId)
self-action key before its mutating call — the guild-settings restore trace
begins with the `guild_settings` marker insert — and an echo for a marked key
is dropped at the SELF-CHECK gate by the handlers that have one (the shared
generic pipeline of the role/channel/emoji/sticker handlers). The guild-update
handler, however, has no SELF-CHECK gate — none of its runs terminates at
SELF-CHECK-DROPPED — so the echo of a guild-settings restore is dropped there
only when the audit trail attributes it to the engine itself (BOT-CHECK). -/
theorem c1_self_action_marking (gid : String) (b g : Bool) (ctx : EventCtx)
    (cfg : GuardConfigM) (ctx2 : EventCtx) (cfg2 : GuardConfigM) (audit : AuditEntry) :
    (restoreGuildSettingsOps gid b g).head? = some (.markSelf gid "guild_settings") ∧
    (ctx.config = some cfg → cfg.enabled = true →
      isSelfAction ctx.selfActions ctx.guild.guildId ctx.targetId = true →
      handleGenericEvent ctx = .droppedSelf) ∧
    handleGuildUpdate ctx2 ≠ .droppedSelf ∧
    (ctx2.config = some cfg2 → cfg2.enabled = true → cfg2.protectionGuild = true →
      ctx2.auditLog = some audit → audit.executorId.getD "" = ctx2.botId →
      handleGuildUpdate ctx2 = .droppedBot) := by
  refine ⟨?_, ?_, ?_, ?_⟩
  · cases b <;> cases g <;> rfl
  · intro h1 h2 h3
    simp [handleGenericEvent, h1, h2, h3]
  · intro h
    rcases handleGuildUpdate_cases ctx2 with h' | h' | h' | h' | h' <;> simp [h'] at h
  · intro hc he hp ha hbot
    simp [handleGuildUpdate, hc, he, hp, ha, hbot]

/-- Witness for C1 (amended) at concrete inputs: a concrete guild-settings
restore trace, a concrete marked echo dropped by the generic handler's
self-check, and a concrete bot-attributed guild-update echo dropped at the
bot check. -/
theorem c1_self_action_marking_witness :
    (restoreGuildSettingsOps "g1" true true).head? = some (.markSelf "g1" "guild_settings") ∧
    handleGenericEvent
      { config := some ⟨true, true, true, true, [], [], 10⟩
        guild := ⟨"g1", []⟩
        targetId := "e1"
        selfActions := [selfKey "g1" "e1"]
        auditLog := some ⟨some "attacker", none⟩
        botId := "bot" } = .droppedSelf ∧
    handleGuildUpdate
      { config := some ⟨true, true, true, true, [], [], 10⟩
        guild := ⟨"g1", []⟩
        targetId := "guild_settings"
        selfActions := []
        auditLog := some ⟨some "bot", none⟩
        botId := "bot" } = .droppedBot := by
  have h := c1_self_action_marking "g1" true true
    { config := some ⟨true, true, true, true, [], [], 10⟩
      guild := ⟨"g1", []⟩
      targetId := "e1"
      selfActions := [selfKey "g1" "e1"]
      auditLog := some ⟨some "attacker", none⟩
      botId := "bot" }
    ⟨true, true, true, true, [], [], 10⟩
    { config := some ⟨true, true, true, true, [], [], 10⟩
      guild := ⟨"g1", []⟩
      targetId := "guild_settings"
      selfActions := []
      auditLog := some ⟨some "bot", none⟩
      botId := "bot" }
    ⟨true, true, true, true, [], [], 10⟩
    ⟨some "bot", none⟩
  exact ⟨h.1, h.2.1 rfl rfl (by decide), h.2.2.2 rfl rfl rfl rfl rfl⟩

/-- While every event stays within 5000 ms of the recorded entry, no further
remediation fires and the entry is never refreshed. -/
theorem firedEvents_suppressed (l : List RoleUpdateEvent) (t0 : Nat)
    (h : ∀ e ∈ l, e.time - t0 < 5000) :
    firedEvents (some t0) l = [] := by
  induction l with
  | nil => rfl
  | cons e rest ih =>
    have he : e.time - t0 < 5000 := h e (List.mem_cons_self e rest)
    simp only [firedEvents, recentChangeStep, if_pos he]
    simpa using ih (fun e' h' => h e' (List.mem_cons_of_mem e h'))

/-- C2 counterexample: two duplicate-fingerprint events 1000 ms apart; exactly
one remediation fires, but it is the one triggered by the FIRST event of the
sequence — whose carried state (10 → 11) differs from the last event's
(11 → 12) — refuting that the remediation acts on the last event's state. -/
theorem c2_remediation_uses_first_event :
    firedEvents none [⟨0, 10, 11⟩, ⟨1000, 11, 12⟩] = [⟨0, 10, 11⟩] ∧
      (⟨0, 10, 11⟩ : RoleUpdateEvent) ≠ ⟨1000, 11, 12⟩ := by
  exact ⟨rfl, by decide⟩

/-- C2 (amended): for any sequence of N ≥ 1 notifications with the same
fingerprint all arriving within the 5-second recent-change window of the first,
exactly one remediation fires, and it is triggered by — and acts on the state
carried by — the FIRST event of the sequence; the mechanism is leading-edge
suppression via a recent-change timestamp map, not a trailing-edge debounce
timer. -/
theorem c2_exactly_one_remediation_first_state (e : RoleUpdateEvent)
    (rest : List RoleUpdateEvent) (h : ∀ e' ∈ rest, e'.time - e.time < 5000) :
    firedEvents none (e :: rest) = [e] := by
  rw [show firedEvents none (e :: rest) = e :: firedEvents (some e.time) rest from rfl,
    firedEvents_suppressed rest e.time h]

/-- Witness for C2 (amended) at a concrete two-event sequence. -/
theorem c2_exactly_one_remediation_first_state_witness :
    firedEvents none [⟨0, 1, 2⟩, ⟨100, 2, 3⟩] = [⟨0, 1, 2⟩] :=
  c2_exactly_one_remediation_first_state ⟨0, 1, 2⟩ [⟨100, 2, 3⟩] (by decide)

/-- C4 counterexample: the executor of an emoji-delete event matches an active,
unexpired action-kind entry of the persisted whitelist, yet the shared generic
pipeline — which handles the emoji-delete entity kind — proceeds to remediation
(`acted`) instead of dropping at the whitelist check: it consults only the
in-config whitelist, never the persisted store. -/
theorem c4_generic_pipeline_ignores_store_whitelist :
    checkWhitelist c4Store 0 c4EmojiDeleteCtx.guild "attacker" "emoji_delete" = true ∧
      handleGenericEvent c4EmojiDeleteCtx = .acted ∧
      PipelineOutcome.acted ≠ .droppedWhitelist := by
  exact ⟨by decide, by decide, by decide⟩

/-- C4 (amended): the synchronous in-config whitelist (listed user id or
currently held listed role) drops a matching event at the whitelist check of
the shared generic pipeline; the persisted store whitelist (active, unexpired
user/action/role entries) is consulted only by the role-delete and role-update
handlers, where a match drops the event at their whitelist check; handlers
using only the generic pipeline never consult the store. -/
theorem c4_whitelist_check_scope (ctx : EventCtx) (cfg : GuardConfigM) (a : AuditEntry)
    (g : GuildState) (sa : List String) (rid : String) (al : Option AuditEntry)
    (store : List WhitelistEntry) (now : Nat) (eid : String) (ctx2 : RoleUpdateCtx)
    (cfg2 : GuardConfigM) (a2 : AuditEntry) :
    (ctx.config = some cfg → cfg.enabled = true →
      isSelfAction ctx.selfActions ctx.guild.guildId ctx.targetId = false →
      ctx.auditLog = some a → (a.executorId.getD "" == ctx.botId) = false →
      isWhitelisted cfg ctx.guild (a.executorId.getD "") = true →
      handleGenericEvent ctx = .droppedWhitelist) ∧
    (isSelfAction sa g.guildId rid = false → al.bind (·.executorId) = some eid →
      checkWhitelist store now g eid "role_delete" = true →
      handleRoleDeleteGates g sa rid al store now = .droppedWhitelist) ∧
    (ctx2.config = some cfg2 → cfg2.enabled = true → cfg2.protectionRoles = true →
      isSelfAction ctx2.selfActions ctx2.guild.guildId ctx2.roleId = false →
      ctx2.restorationInProgress.contains (restorationKey ctx2.guild.guildId ctx2.roleId) = false →
      ctx2.selfActions.contains (recentRestoreKey ctx2.guild.guildId ctx2.roleId) = false →
      ctx2.auditLog = some a2 → (a2.executorId.getD "" == ctx2.botId) = false →
      checkWhitelist ctx2.store ctx2.now ctx2.guild (a2.executorId.getD "") "role_update" = true →
      handleRoleUpdateGates ctx2 = .droppedWhitelist) := by
  refine ⟨?_, ?_, ?_⟩
  · intro h1 h2 h3 h4 h5 h6
    simp [handleGenericEvent, h1, h2, h3, h4, h5, h6]
  · intro h1 h2 h3
    simp [handleRoleDeleteGates, h1, h2, h3]
  · intro h1 h2 h3 h4 h5 h6 h7 h8 h9
    have h5' : restorationKey ctx2.guild.guildId ctx2.roleId ∉ ctx2.restorationInProgress := by
      simpa using h5
    have h6' : recentRestoreKey ctx2.guild.guildId ctx2.roleId ∉ ctx2.selfActions := by
      simpa using h6
    by_cases hsync : isWhitelisted cfg2 ctx2.guild (a2.executorId.getD "") = true
    · simp [handleRoleUpdateGates, h1, h2, h3, h4, h5', h6', h7, h8, hsync]
    · simp [handleRoleUpdateGates, h1, h2, h3, h4, h5', h6', h7, h8, hsync, h9]

/-- Witness for C4 (amended) at concrete inputs: a config-whitelisted executor
dropped by the generic pipeline, and a store-whitelisted executor dropped by
the role-delete and role-update handlers. -/
theorem c4_whitelist_check_scope_witness :
    handleGenericEvent
      { config := some ⟨true, true, true, true, ["vip"], [], 10⟩
        guild := ⟨"g1", []⟩
        targetId := "e1"
        selfActions := []
        auditLog := some ⟨some "vip", none⟩
        botId := "bot" } = .droppedWhitelist ∧
    handleRoleDeleteGates ⟨"g1", []⟩ [] "r1" (some ⟨some "vip", none⟩)
      [⟨"user", "vip", true, none⟩] 0 = .droppedWhitelist ∧
    handleRoleUpdateGates
      { config := some ⟨true, true, true, true, [], [], 10⟩
        guild := ⟨"g1", []⟩
        roleId := "r1"
        selfActions := []
        restorationInProgress := []
        auditLog := some ⟨some "vip", none⟩
        botId := "bot"
        store := [⟨"user", "vip", true, none⟩]
        now := 0
        roleChanged := true
        recentChange := none } = .droppedWhitelist := by
  have h := c4_whitelist_check_scope
    { config := some ⟨true, true, true, true, ["vip"], [], 10⟩
      guild := ⟨"g1", []⟩
      targetId := "e1"
      selfActions := []
      auditLog := some ⟨some "vip", none⟩
      botId := "bot" }
    ⟨true, true, true, true, ["vip"], [], 10⟩ ⟨some "vip", none⟩
    ⟨"g1", []⟩ [] "r1" (some ⟨some "vip", none⟩)
    [⟨"user", "vip", true, none⟩] 0 "vip"
    { config := some ⟨true, true, true, true, [], [], 10⟩
      guild := ⟨"g1", []⟩
      roleId := "r1"
      selfActions := []
      restorationInProgress := []
      auditLog := some ⟨some "vip", none⟩
      botId := "bot"
      store := [⟨"user", "vip", true, none⟩]
      now := 0
      roleChanged := true
      recentChange := none }
    ⟨true, true, true, true, [], [], 10⟩ ⟨some "vip", none⟩
  exact ⟨h.1 rfl rfl (by decide) rfl (by decide) (by decide),
    h.2.1 (by decide) rfl (by decide),
    h.2.2 rfl rfl rfl (by decide) (by decide) (by decide) rfl (by decide) (by decide)⟩

/-- If any backup in the walked list succeeds while the chosen one failed, the
fallback loop reports success. -/
theorem fallbackLoop_complete (succeeds : String → Bool) (chosen : String)
    (l : List String) (hch : succeeds chosen = false)
    (h : ∃ b ∈ l, succeeds b = true) :
    fallbackLoop succeeds chosen l = true := by
  induction l with
  | nil => simp at h
  | cons b rest ih =>
    obtain ⟨w, hw, hws⟩ := h
    unfold fallbackLoop
    by_cases hbc : (b == chosen) = true
    · rw [if_pos hbc]
      rcases List.mem_cons.mp hw with rfl | hwr
      · rw [eq_of_beq hbc, hch] at hws
        cases hws
      · exact ih ⟨w, hwr, hws⟩
    · rw [if_neg hbc]
      by_cases hbs : succeeds b = true
      · rw [if_pos hbs]
      · rw [if_neg hbs]
        rcases List.mem_cons.mp hw with rfl | hwr
        · exact absurd hws hbs
        · exact ih ⟨w, hwr, hws⟩

/-- C5 counterexample: the deleted emoji is restorable from backup `b_old`,
one of the two most recent backups; the role path (performRestore) would fall
back and succeed, but restoreDeletedEmoji tries only the chosen backup `b_new`
and reports failure — there is no retry against older snapshots for the emoji
(or sticker) kind. -/
theorem c5_emoji_restore_has_no_fallback :
    (restoreDeletedEmojiReport (fun b => b == "b_old") "b_new").success = false ∧
      (getBackupsByGuild ["b_new", "b_old"] 10).any (fun b => b == "b_old") = true ∧
      performRestoreSuccess (fun b => b == "b_old") "b_new" ["b_new", "b_old"] = true := by
  exact ⟨by decide, by decide, by decide⟩

/-- C5 (amended): the deleted-role restore path (performRestore, shared with
the generic restore dispatcher) retries against the 10 most recent snapshots,
stopping at the first success, so an entity restorable from the chosen backup
or any of the 10 most recent is restored; exhaustion (and the single-attempt
emoji path's failure) is a reported false result with an outcome notification,
never a thrown error. The deleted-emoji and deleted-sticker paths attempt ONLY
the single chosen snapshot: their reported success equals that one attempt. -/
theorem c5_fallback_scope (succeeds : String → Bool) (chosen : String)
    (all : List String) (h : ∃ b ∈ getBackupsByGuild all 10, succeeds b = true) :
    performRestoreSuccess succeeds chosen all = true ∧
    (performRestoreReport succeeds chosen all).notified = true ∧
    (restoreDeletedEmojiReport succeeds chosen).success = succeeds chosen ∧
    (restoreDeletedEmojiReport succeeds chosen).notified = true := by
  refine ⟨?_, rfl, rfl, rfl⟩
  unfold performRestoreSuccess
  by_cases hch : succeeds chosen = true
  · rw [if_pos hch]
  · rw [if_neg hch]
    exact fallbackLoop_complete succeeds chosen _ (Bool.eq_false_iff.mpr hch) h

/-- Witness for C5 (amended): concrete backups where only the older one
contains the entity. -/
theorem c5_fallback_scope_witness :
    performRestoreSuccess (fun b => b == "s1") "s0" ["s0", "s1"] = true :=
  (c5_fallback_scope (fun b => b == "s1") "s0" ["s0", "s1"]
    ⟨"s1", by decide, by decide⟩).1

/-- C6 counterexample: a non-whitelisted invite creation while the counter
store is failing; the handler's awaited counter-store read rethrows and — with
no try/catch in handleInviteCreate — the rejection escapes the handler to the
event dispatcher. -/
theorem c6_invite_create_rejection_escapes :
    handleInviteCreateRun c6InviteCtx = .error .redisError := by
  rfl

/-- C6 (amended): handlers built on the shared generic pipeline catch their
awaited action's failure internally and always return normally, but
handleInviteCreate has no root try/catch: once its gates pass, a failing
counter store makes the handler itself reject, and the rejection escapes to
the event dispatcher. -/
theorem c6_exception_propagation (ctx : EventCtx) (f : Bool) (ctx2 : InviteCreateCtx)
    (cfg : GuardConfigM) (a : AuditEntry) :
    (handleGenericEventRun ctx f).isOk = true ∧
    (ctx2.config = some cfg → cfg.enabled = true → cfg.protectionInvites = true →
      ctx2.auditLog = some a → (a.executorId.getD "" == ctx2.botId) = false →
      isWhitelisted cfg ctx2.guild (a.executorId.getD "") = false →
      ctx2.redisFails = true →
      handleInviteCreateRun ctx2 = .error .redisError) := by
  constructor
  · unfold handleGenericEventRun
    cases ho : handleGenericEvent ctx <;> cases f <;> rfl
  · intro h1 h2 h3 h4 h5 h6 h7
    simp [handleInviteCreateRun, executeRedisOperation, h1, h2, h3, h4, h5, h6, h7]

/-- Concatenating the fixed-size batches restores the member array: batching
loses and duplicates no member. -/
theorem chunk50_flatten (l : List MemberM) :
    (chunk50 l).flatten = l := by
  induction l using chunk50.induct with
  | case1 =>
    rw [chunk50]
    rfl
  | case2 x xs ih =>
    rw [chunk50]
    simp only [List.flatten_cons, ih, List.take_append_drop]

/-- Per-batch success and error counts add up to batch sizes across a batch
list. -/
theorem sum_batch_counts (L : List (List MemberM)) :
    (L.map (fun b => (batchGranted b).length)).sum + (L.map batchErrorCount).sum
      = (L.map List.length).sum := by
  induction L with
  | nil => rfl
  | cons b rest ih =>
    simp only [List.map_cons, List.sum_cons]
    have hb : (batchGranted b).length ≤ b.length := List.length_filter_le _ _
    simp only [batchErrorCount]
    omega

/-- C7: for a bulk role re-assignment from a snapshot's member records, with
M the number of target members not already holding the role: the aggregated
success count plus the aggregated error count equals M; a member already
holding the role is excluded from the member array and hence from both counts;
and every targeted member whose own grant call does not fail is granted, no
matter how many of its batch siblings fail. -/
theorem c7_batch_accounting (snap : List String) (live : List MemberM) :
    fastAssignSuccessCount snap live + fastAssignErrorCount snap live
        = (membersToAssign snap live).length ∧
    (∀ m ∈ live, m.hasRole = true → m ∉ membersToAssign snap live) ∧
    (∀ m ∈ membersToAssign snap live, m.grantFails = false →
      m ∈ fastAssignGranted snap live) := by
  refine ⟨?_, ?_, ?_⟩
  · unfold fastAssignSuccessCount fastAssignErrorCount fastAssignGranted
    rw [List.length_flatten, List.map_map]
    have h := sum_batch_counts (chunk50 (membersToAssign snap live))
    have h2 : ((chunk50 (membersToAssign snap live)).map List.length).sum
        = (membersToAssign snap live).length := by
      rw [← List.length_flatten, chunk50_flatten]
    have h3 : (List.length ∘ batchGranted) = fun b => (batchGranted b).length := rfl
    rw [h3]
    omega
  · intro m hm hrole hmem
    have hpred := (List.mem_filter.mp hmem).2
    simp [hrole] at hpred
  · intro m hm hgf
    have hm' : m ∈ (chunk50 (membersToAssign snap live)).flatten := by
      rw [chunk50_flatten]
      exact hm
    obtain ⟨b, hb, hmb⟩ := List.mem_flatten.mp hm'
    exact List.mem_flatten.mpr
      ⟨batchGranted b, List.mem_map_of_mem _ hb, List.mem_filter.mpr ⟨hmb, by simp [hgf]⟩⟩

/-- Witness for C7 at a concrete sync: three snapshot members, one already
holding the role (excluded), one clean grant (counted success even though its
batch sibling fails), one failing grant (counted error). -/
theorem c7_batch_accounting_witness :
    fastAssignSuccessCount ["u1", "u2", "u3"]
        [⟨"u1", false, false⟩, ⟨"u2", true, false⟩, ⟨"u3", false, true⟩]
      + fastAssignErrorCount ["u1", "u2", "u3"]
        [⟨"u1", false, false⟩, ⟨"u2", true, false⟩, ⟨"u3", false, true⟩]
      = (membersToAssign ["u1", "u2", "u3"]
        [⟨"u1", false, false⟩, ⟨"u2", true, false⟩, ⟨"u3", false, true⟩]).length ∧
    (⟨"u2", true, false⟩ : MemberM) ∉ membersToAssign ["u1", "u2", "u3"]
        [⟨"u1", false, false⟩, ⟨"u2", true, false⟩, ⟨"u3", false, true⟩] ∧
    (⟨"u1", false, false⟩ : MemberM) ∈ fastAssignGranted ["u1", "u2", "u3"]
        [⟨"u1", false, false⟩, ⟨"u2", true, false⟩, ⟨"u3", false, true⟩] := by
  have h := c7_batch_accounting ["u1", "u2", "u3"]
    [⟨"u1", false, false⟩, ⟨"u2", true, false⟩, ⟨"u3", false, true⟩]
  exact ⟨h.1, h.2.1 ⟨"u2", true, false⟩ (by decide) rfl,
    h.2.2 ⟨"u1", false, false⟩ (by decide) rfl⟩

/-- C9: an inbound gateway event whose guild id differs from the configured
target guild id is never dispatched to any Guard Engine handler — every
listener's guard fails — so no audit lookup, platform mutation or violation
record can result from it: the engine protects exactly one guild per
process. -/
theorem c9_single_guild_dispatch (tg : String) (e : GatewayEvent)
    (h : e.guildId ≠ some tg) : dispatchesHandler tg e = false := by
  obtain ⟨k, gid, op, np⟩ := e
  have hb : (gid == some tg) = false := by
    simpa using h
  cases k <;> simp [dispatchesHandler, hb]

/-- Witness for C9: a role-delete event from a foreign guild is not
dispatched. -/
theorem c9_single_guild_dispatch_witness :
    dispatchesHandler "g1" ⟨.roleDelete, some "g2", false, false⟩ = false :=
  c9_single_guild_dispatch "g1" ⟨.roleDelete, some "g2", false, false⟩ (by decide)

/-- Witness for C6 (amended) at concrete inputs. -/
theorem c6_exception_propagation_witness :
    (handleGenericEventRun
      { config := some ⟨true, true, true, true, [], [], 10⟩
        guild := ⟨"g1", []⟩
        targetId := "e1"
        selfActions := []
        auditLog := some ⟨some "attacker", none⟩
        botId := "bot" } true).isOk = true ∧
      handleInviteCreateRun c6InviteCtx = .error .redisError := by
  have h := c6_exception_propagation
    { config := some ⟨true, true, true, true, [], [], 10⟩
      guild := ⟨"g1", []⟩
      targetId := "e1"
      selfActions := []
      auditLog := some ⟨some "attacker", none⟩
      botId := "bot" } true c6InviteCtx
    ⟨true, true, true, true, [], [], 10⟩ ⟨some "attacker", none⟩
  exact ⟨h.1, h.2 rfl rfl rfl rfl (by decide) (by decide) rfl⟩

end TrashBackup
